import Mathlib

/-!
Verification development for the Intelligent-PDF-Summarizer function app
(`src/function_app.py`): a three-step durable pipeline
(analyze_pdf → summarize_text → write_doc) sequenced by the
`process_document` orchestrator with per-step retry, triggered by a blob
upload.  Each Python function is shallowly embedded as a Lean definition;
external collaborators (blob storage, Document Intelligence, Azure OpenAI,
the durable-task engine) are represented by explicit inputs/oracles.
-/

/-- Python `s.replace(a, b)` for a one-character pattern `a`: every
occurrence of the character `a` in `s` is replaced by `b` (with a
one-character pattern, Python substring replacement is exactly per-character
substitution).  Used by `write_doc` as `summary.replace(".", "-")`. -/
def pyReplaceChar (s : String) (a b : Char) : String :=
  String.mk (s.data.map (fun c => if c = a then b else c))

/-- The observable effect of the `write_doc` activity
(`src/function_app.py` lines 107-119) on inputs `blobName`
(`results['blobName']`), `content` (`results['summary']['content']`) and
`now` (the string rendering `str(datetime.now())`):
the name passed to `container_client.upload_blob`, the data passed to it,
and the activity's return value. -/
structure WriteDocEffect where
  uploadedName : String
  uploadedData : String
  returned : String
deriving DecidableEq, Repr

/-- Embedding of the body of `write_doc`:
`summary = results['blobName'] + "-" + str(datetime.now())`;
`sanitizedSummary = summary.replace(".", "-")`;
`fileName = sanitizedSummary + ".txt"`;
`upload_blob(name=fileName, data=results['summary']['content'])`;
`return str(summary + ".txt")`. -/
def write_doc (blobName content now : String) : WriteDocEffect :=
  let summary := blobName ++ "-" ++ now
  let sanitizedSummary := pyReplaceChar summary ('.') ('-')
  let fileName := sanitizedSummary ++ (".txt")
  { uploadedName := fileName
    uploadedData := content
    returned := summary ++ (".txt") }

/-- C1 evidence: at blob name `invoice123.pdf` and a concrete timestamp,
`write_doc` uploads under the sanitized name but returns the unsanitized
name, so the returned name differs from the name actually written. -/
theorem write_doc_return_mismatch :
    (write_doc ("invoice123.pdf") ("A $500 invoice.") ("2024-01-01 00:00:00.000001")).uploadedName
      = ("invoice123-pdf-2024-01-01 00:00:00-000001.txt")
    ∧ (write_doc ("invoice123.pdf") ("A $500 invoice.") ("2024-01-01 00:00:00.000001")).returned
      = ("invoice123.pdf-2024-01-01 00:00:00.000001.txt")
    ∧ (write_doc ("invoice123.pdf") ("A $500 invoice.") ("2024-01-01 00:00:00.000001")).returned
      ≠ (write_doc ("invoice123.pdf") ("A $500 invoice.") ("2024-01-01 00:00:00.000001")).uploadedName := by
  refine ⟨rfl, rfl, ?_⟩
  decide

/-- C3: for every blob name, summary content and timestamp string, the name
`write_doc` uploads under is the dot-sanitized base (every `.` of
`blobName + "-" + now` replaced by `-`) followed by one `.txt` suffix, and
that base contains no `.` character. -/
theorem write_doc_uploadedName_sanitized (blobName content now : String) :
    (write_doc blobName content now).uploadedName
      = pyReplaceChar (blobName ++ "-" ++ now) ('.') ('-') ++ (".txt")
    ∧ (pyReplaceChar (blobName ++ "-" ++ now) ('.') ('-')).data.count ('.') = 0 := by
  refine ⟨rfl, ?_⟩
  rw [List.count_eq_zero]
  intro hmem
  rcases List.mem_map.mp hmem with ⟨c, _, hc⟩
  by_cases h : c = '.' <;> simp [h] at hc

/-- The summary record produced by `summarize_text`: `{ "content": content }`. -/
structure Summary where
  content : String
deriving DecidableEq, Repr

/-- The input dictionary passed to `write_doc` by the orchestrator:
`{ "blobName": blobName, "summary": result2 }`. -/
structure WriteDocInput where
  blobName : String
  summary : Summary
deriving DecidableEq, Repr

/-- The three activity names the orchestrator dispatches, in pipeline order. -/
inductive StepName
  | analyze
  | summarize
  | persist
deriving DecidableEq, Repr

/-- A step output durably recorded by the engine when an activity call
completes. -/
inductive StepOutput
  | analyzed (text : String)
  | summarized (s : Summary)
  | persisted (name : String)
deriving DecidableEq, Repr

/-- Terminal state of a workflow instance: `completed ret` with the
orchestrator's return value (an optional string, since Python returns
`None` when no value is produced), or `failed s` when step `s` exhausted
its retry budget. -/
inductive RunResult
  | completed (ret : Option String)
  | failed (s : StepName)
deriving DecidableEq, Repr

/-- `df.RetryOptions(first_retry_interval_in_milliseconds, max_number_of_attempts)`:
the delay before a retry and the total number of attempts including the
first.  The delay does not affect which attempts run, only when, so the
functional model below reads only `max_number_of_attempts`. -/
structure RetryOptions where
  first_retry_interval_in_milliseconds : Nat
  max_number_of_attempts : Nat
deriving DecidableEq, Repr

/-- The retry options built by `process_document`:
`df.RetryOptions(5000, 3)`. -/
def retry_options : RetryOptions :=
  { first_retry_interval_in_milliseconds := 5000
    max_number_of_attempts := 3 }

/-- Retry loop of the engine, counting attempts.  `attempts i` is the
outcome of attempt number `i` of the activity (`none` = the activity
raised).  `runStepAux attempts i fuel` runs up to `fuel` further attempts
starting at attempt index `i` and returns the first success (if any)
together with the total number of attempts made so far. -/
def runStepAux {β : Type} (attempts : Nat → Option β) : Nat → Nat → Option β × Nat
  | i, 0 => (none, i)
  | i, fuel + 1 =>
    match attempts i with
    | some b => (some b, i + 1)
    | none => runStepAux attempts (i + 1) fuel

/-- `context.call_activity_with_retry(activity, retry_options, input)`:
run the activity up to `max_number_of_attempts` times, returning the first
successful result (or `none` after exhaustion) and the number of attempts
made.  Modelled from the spec: the durable engine's documented retry
contract (the engine itself is the `azure.durable_functions` collaborator,
not code of this repository). -/
def call_activity_with_retry {β : Type} (opts : RetryOptions)
    (attempts : Nat → Option β) : Option β × Nat :=
  runStepAux attempts 0 opts.max_number_of_attempts

/-- The environment a workflow run executes against: for each activity and
each input, the outcome of each attempt (`none` = that attempt raised).
The three fields abstract the three activity functions `analyze_pdf`,
`summarize_text` and `write_doc` together with the external services they
call. -/
structure Env where
  analyze : String → Nat → Option String
  summarize : String → Nat → Option Summary
  write_doc : WriteDocInput → Nat → Option String

/-- Everything observable about one workflow run: terminal state, the
recorded step outputs in completion order, per-activity attempt counts, and
the inputs handed to the downstream activities. -/
structure RunRecord where
  result : RunResult
  trace : List StepOutput
  analyzeCalls : Nat
  summarizeCalls : Nat
  persistCalls : Nat
  summarizeInput : Option String
  persistInput : Option WriteDocInput
deriving DecidableEq, Repr

/-- Python `logging.info(...)` logs its message and returns `None`. -/
def logging_info (_message : String) : Option String :=
  none

/-- Embedding of the orchestrator `process_document`
(`src/function_app.py` lines 28-43): three `call_activity_with_retry`
calls in sequence, each feeding the next
(`analyze_pdf blobName` → `summarize_text result` →
`write_doc {blobName, summary: result2}`), ending with
`return logging.info(f"Successfully uploaded summary to {result3}")`.
A step that exhausts its retries faults the instance (`failed`), and no
later activity is dispatched. -/
def process_document (env : Env) (blobName : String) : RunRecord :=
  match call_activity_with_retry retry_options (env.analyze blobName) with
  | (none, k1) =>
    { result := RunResult.failed StepName.analyze
      trace := []
      analyzeCalls := k1
      summarizeCalls := 0
      persistCalls := 0
      summarizeInput := none
      persistInput := none }
  | (some result, k1) =>
    match call_activity_with_retry retry_options (env.summarize result) with
    | (none, k2) =>
      { result := RunResult.failed StepName.summarize
        trace := [StepOutput.analyzed result]
        analyzeCalls := k1
        summarizeCalls := k2
        persistCalls := 0
        summarizeInput := some result
        persistInput := none }
    | (some result2, k2) =>
      match call_activity_with_retry retry_options (env.write_doc { blobName := blobName, summary := result2 }) with
      | (none, k3) =>
        { result := RunResult.failed StepName.persist
          trace := [StepOutput.analyzed result, StepOutput.summarized result2]
          analyzeCalls := k1
          summarizeCalls := k2
          persistCalls := k3
          summarizeInput := some result
          persistInput := some { blobName := blobName, summary := result2 } }
      | (some result3, k3) =>
        { result := RunResult.completed (logging_info ("Successfully uploaded summary to " ++ result3))
          trace := [StepOutput.analyzed result, StepOutput.summarized result2,
                    StepOutput.persisted result3]
          analyzeCalls := k1
          summarizeCalls := k2
          persistCalls := k3
          summarizeInput := some result
          persistInput := some { blobName := blobName, summary := result2 } }

/-- The retry loop makes at most `fuel` further attempts: its attempt
counter never exceeds `i + fuel`. -/
theorem runStepAux_snd_le {β : Type} (attempts : Nat → Option β) :
    ∀ (fuel i : Nat), (runStepAux attempts i fuel).2 ≤ i + fuel := by
  intro fuel
  induction fuel with
  | zero =>
    intro i
    simp [runStepAux]
  | succ n ih =>
    intro i
    rw [runStepAux]
    cases h : attempts i with
    | some b => simp
    | none => exact le_trans (ih (i + 1)) (by omega)

/-- If every attempt in the window fails, the retry loop exhausts its fuel
and reports no result after `i + fuel` attempts. -/
theorem runStepAux_all_none {β : Type} (attempts : Nat → Option β) :
    ∀ (fuel i : Nat), (∀ t, t < fuel → attempts (i + t) = none) →
      runStepAux attempts i fuel = (none, i + fuel) := by
  intro fuel
  induction fuel with
  | zero =>
    intro i _
    simp [runStepAux]
  | succ n ih =>
    intro i h
    have h0 : attempts i = none := by simpa using h 0 (Nat.succ_pos n)
    rw [runStepAux, h0]
    have hrec := ih (i + 1) (fun t ht => by
      have harith : i + 1 + t = i + (t + 1) := by omega
      rw [harith]
      exact h (t + 1) (by omega))
    have harith2 : i + 1 + n = i + (n + 1) := by omega
    rw [harith2] at hrec
    exact hrec

/-- If the first `j` attempts fail and attempt `j` succeeds within the fuel
window, the retry loop returns that success after exactly `i + j + 1`
attempts. -/
theorem runStepAux_first_success {β : Type} (attempts : Nat → Option β) (v : β) :
    ∀ (j i fuel : Nat), j < fuel →
      (∀ t, t < j → attempts (i + t) = none) → attempts (i + j) = some v →
      runStepAux attempts i fuel = (some v, i + j + 1) := by
  intro j
  induction j with
  | zero =>
    intro i fuel hfuel _ hsucc
    cases fuel with
    | zero => omega
    | succ n =>
      rw [runStepAux]
      rw [Nat.add_zero] at hsucc
      rw [hsucc]
  | succ m ih =>
    intro i fuel hfuel hfail hsucc
    cases fuel with
    | zero => omega
    | succ n =>
      have h0 : attempts i = none := by simpa using hfail 0 (Nat.succ_pos m)
      rw [runStepAux, h0]
      have hrec := ih (i + 1) n (by omega)
        (fun t ht => by
          have harith : i + 1 + t = i + (t + 1) := by omega
          rw [harith]
          exact hfail (t + 1) (by omega))
        (by
          have harith : i + 1 + m = i + (m + 1) := by omega
          rw [harith]
          exact hsucc)
      have harith2 : i + 1 + m + 1 = i + (m + 1) + 1 := by omega
      rw [harith2] at hrec
      exact hrec

/-- An activity call never makes more attempts than
`retry_options.max_number_of_attempts`. -/
theorem call_retry_calls_le {β : Type} (attempts : Nat → Option β) :
    (call_activity_with_retry retry_options attempts).2
      ≤ retry_options.max_number_of_attempts := by
  simpa using runStepAux_snd_le attempts retry_options.max_number_of_attempts 0

/-- An activity whose first `max_number_of_attempts` attempts all fail
exhausts its retry budget: the call reports failure after exactly
`max_number_of_attempts` attempts. -/
theorem call_retry_all_none {β : Type} (attempts : Nat → Option β)
    (h : ∀ t, t < retry_options.max_number_of_attempts → attempts t = none) :
    call_activity_with_retry retry_options attempts
      = (none, retry_options.max_number_of_attempts) := by
  simpa using runStepAux_all_none attempts retry_options.max_number_of_attempts 0
    (fun t ht => by simpa using h t ht)

/-- An activity that fails on its first `j` attempts and succeeds on
attempt `j` (with `j` within the retry budget) yields that success after
exactly `j + 1` attempts. -/
theorem call_retry_success {β : Type} (attempts : Nat → Option β) (v : β) (j : Nat)
    (hj : j < retry_options.max_number_of_attempts)
    (hfail : ∀ t, t < j → attempts t = none) (hsucc : attempts j = some v) :
    call_activity_with_retry retry_options attempts = (some v, j + 1) := by
  simpa using runStepAux_first_success attempts v j 0
    retry_options.max_number_of_attempts hj
    (fun t ht => by simpa using hfail t ht) (by simpa using hsucc)

/-- An activity that succeeds on every attempt is called exactly once. -/
theorem call_retry_immediate {β : Type} (v : β) :
    call_activity_with_retry retry_options (fun _ => some v) = (some v, 1) :=
  rfl

/-- The end-to-end scenario environment of the spec: analyze yields
`"Invoice for $500"` on every attempt, summarize yields
`{content: "A $500 invoice."}`, and the persist activity succeeds,
returning a written-object name. -/
def envHappy : Env :=
  { analyze := fun _ _ => some ("Invoice for $500")
    summarize := fun _ _ => some { content := "A $500 invoice." }
    write_doc := fun _ _ => some ("invoice123-pdf-2024-01-01 00-00-00-000001.txt") }

/-- C2 evidence: on a fully successful run the orchestrator records the
persist step's output in the trace, but its own return value — hence the
instance's final result — is `None`, because `process_document` ends with
`return logging.info(...)` and `logging.info` returns `None`; the final
result is not the name the persist step returned. -/
theorem process_document_final_result_is_none :
    (process_document envHappy ("invoice123.pdf")).trace
      = [StepOutput.analyzed ("Invoice for $500"),
         StepOutput.summarized { content := "A $500 invoice." },
         StepOutput.persisted ("invoice123-pdf-2024-01-01 00-00-00-000001.txt")]
    ∧ (process_document envHappy ("invoice123.pdf")).result = RunResult.completed none
    ∧ RunResult.completed none
        ≠ RunResult.completed (some ("invoice123-pdf-2024-01-01 00-00-00-000001.txt")) := by
  exact ⟨rfl, rfl, by decide⟩

/-- C4: every activity is attempted at most `max_number_of_attempts` (3)
times; if analyze fails all 3 attempts the instance ends `Failed` at
analyze with summarize and persist never invoked; if summarize fails all
its attempts (on any input) the instance ends `Failed` and persist is
invoked zero times; if persist fails all its attempts the instance ends
`Failed`. -/
theorem step_failure_halts_instance (env : Env) (b : String) :
    ((process_document env b).analyzeCalls ≤ retry_options.max_number_of_attempts
      ∧ (process_document env b).summarizeCalls ≤ retry_options.max_number_of_attempts
      ∧ (process_document env b).persistCalls ≤ retry_options.max_number_of_attempts)
    ∧ ((∀ i, i < retry_options.max_number_of_attempts → env.analyze b i = none) →
        (process_document env b).result = RunResult.failed StepName.analyze
          ∧ (process_document env b).summarizeCalls = 0
          ∧ (process_document env b).persistCalls = 0)
    ∧ ((∀ s i, i < retry_options.max_number_of_attempts → env.summarize s i = none) →
        (∃ st, (process_document env b).result = RunResult.failed st)
          ∧ (process_document env b).persistCalls = 0)
    ∧ ((∀ inp i, i < retry_options.max_number_of_attempts → env.write_doc inp i = none) →
        ∃ st, (process_document env b).result = RunResult.failed st) := by
  have hA := call_retry_calls_le (env.analyze b)
  refine ⟨?_, ?_, ?_, ?_⟩
  · rcases h1 : call_activity_with_retry retry_options (env.analyze b) with ⟨o1, k1⟩
    rw [h1] at hA
    cases o1 with
    | none => simp [process_document, h1]; omega
    | some r1 =>
      have hS := call_retry_calls_le (env.summarize r1)
      rcases h2 : call_activity_with_retry retry_options (env.summarize r1) with ⟨o2, k2⟩
      rw [h2] at hS
      cases o2 with
      | none => simp [process_document, h1, h2]; omega
      | some r2 =>
        have hW := call_retry_calls_le (env.write_doc { blobName := b, summary := r2 })
        rcases h3 : call_activity_with_retry retry_options
            (env.write_doc { blobName := b, summary := r2 }) with ⟨o3, k3⟩
        rw [h3] at hW
        cases o3 with
        | none => simp [process_document, h1, h2, h3]; omega
        | some r3 => simp [process_document, h1, h2, h3]; omega
  · intro h
    have h1 := call_retry_all_none (env.analyze b) h
    simp [process_document, h1]
  · intro h
    rcases h1 : call_activity_with_retry retry_options (env.analyze b) with ⟨o1, k1⟩
    cases o1 with
    | none => exact ⟨⟨StepName.analyze, by simp [process_document, h1]⟩,
        by simp [process_document, h1]⟩
    | some r1 =>
      have h2 := call_retry_all_none (env.summarize r1) (h r1)
      exact ⟨⟨StepName.summarize, by simp [process_document, h1, h2]⟩,
        by simp [process_document, h1, h2]⟩
  · intro h
    rcases h1 : call_activity_with_retry retry_options (env.analyze b) with ⟨o1, k1⟩
    cases o1 with
    | none => exact ⟨StepName.analyze, by simp [process_document, h1]⟩
    | some r1 =>
      rcases h2 : call_activity_with_retry retry_options (env.summarize r1) with ⟨o2, k2⟩
      cases o2 with
      | none => exact ⟨StepName.summarize, by simp [process_document, h1, h2]⟩
      | some r2 =>
        have h3 := call_retry_all_none (env.write_doc { blobName := b, summary := r2 })
          (h { blobName := b, summary := r2 })
        exact ⟨StepName.persist, by simp [process_document, h1, h2, h3]⟩

/-- An environment in which the summarize activity raises on every attempt. -/
def envSummarizeBroken : Env :=
  { analyze := fun _ _ => some ("Invoice for $500")
    summarize := fun _ _ => none
    write_doc := fun _ _ => some ("out.txt") }

/-- Witness for C4 at a concrete environment whose summarize activity
always fails: the instance ends `Failed` and persist is never invoked. -/
theorem step_failure_halts_instance_witness :
    (∃ st, (process_document envSummarizeBroken ("invoice123.pdf")).result
      = RunResult.failed st)
    ∧ (process_document envSummarizeBroken ("invoice123.pdf")).persistCalls = 0 :=
  (step_failure_halts_instance envSummarizeBroken ("invoice123.pdf")).2.2.1
    (fun _ _ _ => rfl)

/-- C5: the recorded step outputs of any run form a prefix of
analyze-output, summarize-output, persist-output in that order (so no step
is skipped, repeated, or completed out of order), and a run in which all
three activity calls succeed records exactly those three outputs in order
and ends in the `Completed` state. -/
theorem three_steps_fixed_order (env : Env) (b : String) :
    (∃ r1 r2 r3,
      (process_document env b).trace = []
      ∨ (process_document env b).trace = [StepOutput.analyzed r1]
      ∨ (process_document env b).trace
          = [StepOutput.analyzed r1, StepOutput.summarized r2]
      ∨ (process_document env b).trace
          = [StepOutput.analyzed r1, StepOutput.summarized r2, StepOutput.persisted r3])
    ∧ (∀ r1 k1 r2 k2 r3 k3,
        call_activity_with_retry retry_options (env.analyze b) = (some r1, k1) →
        call_activity_with_retry retry_options (env.summarize r1) = (some r2, k2) →
        call_activity_with_retry retry_options
            (env.write_doc { blobName := b, summary := r2 }) = (some r3, k3) →
        (process_document env b).trace
          = [StepOutput.analyzed r1, StepOutput.summarized r2, StepOutput.persisted r3]
        ∧ (process_document env b).result = RunResult.completed none) := by
  constructor
  · rcases h1 : call_activity_with_retry retry_options (env.analyze b) with ⟨o1, k1⟩
    cases o1 with
    | none =>
      exact ⟨"", { content := "" }, "", Or.inl (by simp [process_document, h1])⟩
    | some r1 =>
      rcases h2 : call_activity_with_retry retry_options (env.summarize r1) with ⟨o2, k2⟩
      cases o2 with
      | none =>
        exact ⟨r1, { content := "" }, "",
          Or.inr (Or.inl (by simp [process_document, h1, h2]))⟩
      | some r2 =>
        rcases h3 : call_activity_with_retry retry_options
            (env.write_doc { blobName := b, summary := r2 }) with ⟨o3, k3⟩
        cases o3 with
        | none =>
          exact ⟨r1, r2, "",
            Or.inr (Or.inr (Or.inl (by simp [process_document, h1, h2, h3])))⟩
        | some r3 =>
          exact ⟨r1, r2, r3,
            Or.inr (Or.inr (Or.inr (by simp [process_document, h1, h2, h3])))⟩
  · intro r1 k1 r2 k2 r3 k3 h1 h2 h3
    constructor
    · simp [process_document, h1, h2, h3]
    · simp [process_document, h1, h2, h3, logging_info]

/-- Witness for C5: the fully successful scenario environment records the
three step outputs in pipeline order and completes. -/
theorem three_steps_fixed_order_witness :
    (process_document envHappy ("invoice123.pdf")).trace
      = [StepOutput.analyzed ("Invoice for $500"),
         StepOutput.summarized { content := "A $500 invoice." },
         StepOutput.persisted ("invoice123-pdf-2024-01-01 00-00-00-000001.txt")]
    ∧ (process_document envHappy ("invoice123.pdf")).result = RunResult.completed none :=
  (three_steps_fixed_order envHappy ("invoice123.pdf")).2
    ("Invoice for $500") 1 { content := "A $500 invoice." } 1
    ("invoice123-pdf-2024-01-01 00-00-00-000001.txt") 1 rfl rfl rfl

/-- Two runs have the same outcome when they agree on terminal state,
recorded step outputs, and the inputs handed to the downstream steps
(attempt counts are deliberately not compared). -/
def sameOutcome (r r' : RunRecord) : Prop :=
  r.result = r'.result ∧ r.trace = r'.trace
    ∧ r.summarizeInput = r'.summarizeInput ∧ r.persistInput = r'.persistInput

/-- The outcome of a run depends on the activities only through the values
their retried calls settle on: environments whose three activity calls
(after retry) agree pointwise produce runs with the same outcome. -/
theorem process_document_congr (env env' : Env) (b : String)
    (hA : ∀ s, (call_activity_with_retry retry_options (env.analyze s)).1
            = (call_activity_with_retry retry_options (env'.analyze s)).1)
    (hS : ∀ s, (call_activity_with_retry retry_options (env.summarize s)).1
            = (call_activity_with_retry retry_options (env'.summarize s)).1)
    (hW : ∀ inp, (call_activity_with_retry retry_options (env.write_doc inp)).1
            = (call_activity_with_retry retry_options (env'.write_doc inp)).1) :
    sameOutcome (process_document env b) (process_document env' b) := by
  rcases h1 : call_activity_with_retry retry_options (env.analyze b) with ⟨o1, k1⟩
  rcases h1' : call_activity_with_retry retry_options (env'.analyze b) with ⟨o1', k1'⟩
  have e1 : o1 = o1' := by
    have hh := hA b
    rw [h1, h1'] at hh
    exact hh
  subst e1
  cases o1 with
  | none => simp [sameOutcome, process_document, h1, h1']
  | some r1 =>
    rcases h2 : call_activity_with_retry retry_options (env.summarize r1) with ⟨o2, k2⟩
    rcases h2' : call_activity_with_retry retry_options (env'.summarize r1) with ⟨o2', k2'⟩
    have e2 : o2 = o2' := by
      have hh := hS r1
      rw [h2, h2'] at hh
      exact hh
    subst e2
    cases o2 with
    | none => simp [sameOutcome, process_document, h1, h1', h2, h2']
    | some r2 =>
      rcases h3 : call_activity_with_retry retry_options
          (env.write_doc { blobName := b, summary := r2 }) with ⟨o3, k3⟩
      rcases h3' : call_activity_with_retry retry_options
          (env'.write_doc { blobName := b, summary := r2 }) with ⟨o3', k3'⟩
      have e3 : o3 = o3' := by
        have hh := hW { blobName := b, summary := r2 }
        rw [h3, h3'] at hh
        exact hh
      subst e3
      cases o3 with
      | none => simp [sameOutcome, process_document, h1, h1', h2, h2', h3, h3']
      | some r3 => simp [sameOutcome, process_document, h1, h1', h2, h2', h3, h3']

/-- A call that fails `j` times and then settles on `v` settles on the same
value as a call that yields `v` on every attempt. -/
theorem call_retry_eventual_eq_immediate {β : Type} (f g : Nat → Option β) (v : β)
    (j : Nat) (hj : j < retry_options.max_number_of_attempts)
    (hfail : ∀ t, t < j → f t = none) (hsucc : f j = some v)
    (hg : ∀ i, g i = some v) :
    (call_activity_with_retry retry_options f).1
      = (call_activity_with_retry retry_options g).1 := by
  rw [call_retry_success f v j hj hfail hsucc,
    call_retry_success g v 0 (Nat.lt_of_le_of_lt (Nat.zero_le j) hj)
      (fun t ht => absurd ht (by omega)) (hg 0)]

/-- C6: for each of the three steps, a run in which that step fails `j`
times (`j` below the retry budget) and then succeeds with a value produces
the same outcome — same recorded outputs, same downstream step inputs, same
terminal state and result — as a run in which the step succeeds with that
value on its first attempt; the other two activities are unchanged. -/
theorem retried_failures_invisible :
    (∀ (env env' : Env) (b : String) (j : Nat) (v : String),
      j < retry_options.max_number_of_attempts →
      env'.summarize = env.summarize →
      env'.write_doc = env.write_doc →
      (∀ s t, t < j → env.analyze s t = none) →
      (∀ s, env.analyze s j = some v) →
      (∀ s i, env'.analyze s i = some v) →
      sameOutcome (process_document env b) (process_document env' b))
    ∧ (∀ (env env' : Env) (b : String) (j : Nat) (v : Summary),
      j < retry_options.max_number_of_attempts →
      env'.analyze = env.analyze →
      env'.write_doc = env.write_doc →
      (∀ s t, t < j → env.summarize s t = none) →
      (∀ s, env.summarize s j = some v) →
      (∀ s i, env'.summarize s i = some v) →
      sameOutcome (process_document env b) (process_document env' b))
    ∧ (∀ (env env' : Env) (b : String) (j : Nat) (v : String),
      j < retry_options.max_number_of_attempts →
      env'.analyze = env.analyze →
      env'.summarize = env.summarize →
      (∀ inp t, t < j → env.write_doc inp t = none) →
      (∀ inp, env.write_doc inp j = some v) →
      (∀ inp i, env'.write_doc inp i = some v) →
      sameOutcome (process_document env b) (process_document env' b)) := by
  refine ⟨?_, ?_, ?_⟩
  · intro env env' b j v hj hs hw hfail hsucc himm
    refine process_document_congr env env' b ?_ ?_ ?_
    · intro s
      exact call_retry_eventual_eq_immediate (env.analyze s) (env'.analyze s) v j hj
        (hfail s) (hsucc s) (himm s)
    · intro s
      rw [hs]
    · intro inp
      rw [hw]
  · intro env env' b j v hj ha hw hfail hsucc himm
    refine process_document_congr env env' b ?_ ?_ ?_
    · intro s
      rw [ha]
    · intro s
      exact call_retry_eventual_eq_immediate (env.summarize s) (env'.summarize s) v j hj
        (hfail s) (hsucc s) (himm s)
    · intro inp
      rw [hw]
  · intro env env' b j v hj ha hs hfail hsucc himm
    refine process_document_congr env env' b ?_ ?_ ?_
    · intro s
      rw [ha]
    · intro s
      rw [hs]
    · intro inp
      exact call_retry_eventual_eq_immediate (env.write_doc inp) (env'.write_doc inp) v j hj
        (hfail inp) (hsucc inp) (himm inp)

/-- An environment whose summarize activity raises on its first attempt and
succeeds on every later attempt. -/
def envRetryOnce : Env :=
  { analyze := fun _ _ => some ("Invoice for $500")
    summarize := fun _ i => if i = 0 then none else some { content := "A $500 invoice." }
    write_doc := fun _ _ => some ("out.txt") }

/-- The same environment with the summarize activity succeeding on every
attempt. -/
def envFirstTry : Env :=
  { analyze := fun _ _ => some ("Invoice for $500")
    summarize := fun _ _ => some { content := "A $500 invoice." }
    write_doc := fun _ _ => some ("out.txt") }

/-- Witness for C6 at the summarize step: one failed attempt followed by
success gives the same run outcome as first-attempt success. -/
theorem retried_failures_invisible_witness :
    sameOutcome (process_document envRetryOnce ("invoice123.pdf"))
      (process_document envFirstTry ("invoice123.pdf")) :=
  retried_failures_invisible.2.1 envRetryOnce envFirstTry ("invoice123.pdf") 1
    { content := "A $500 invoice." } (by decide) rfl rfl
    (fun s t ht => by
      have h0 : t = 0 := by omega
      rw [h0]
      rfl)
    (fun s => rfl) (fun s i => rfl)

/-- The HTTP response from the Azure OpenAI chat-completions call, as
`summarize_text` consumes it: `status_code`, the raw body `text`
(`response.text`), and the summary string the body parses to
(`response.json()["choices"][0]["message"]["content"]`), abstracting JSON
decoding of a well-formed collaborator response. -/
structure HttpResponse where
  status_code : Nat
  text : String
  content : String
deriving DecidableEq, Repr

/-- Embedding of the response handling of `summarize_text`
(`src/function_app.py` lines 95-105): if `response.status_code != 200` the
activity logs `status_code` and `response.text` and raises (modelled as
`Except.error` carrying the logged pair), otherwise it returns
`{ "content": content }`. -/
def summarize_text (response : HttpResponse) : Except (Nat × String) Summary :=
  if response.status_code ≠ 200 then Except.error (response.status_code, response.text)
  else Except.ok { content := response.content }

/-- C7: `summarize_text` fails exactly when the collaborator's status is
not the success status 200 (per the spec, success means status 200); every
failure carries the response's status code and body, and on status 200 the
activity returns the summary record `{content}`. -/
theorem summarize_text_error_behaviour (response : HttpResponse) :
    ((∃ e, summarize_text response = Except.error e) ↔ response.status_code ≠ 200)
    ∧ (∀ e, summarize_text response = Except.error e
        → e = (response.status_code, response.text))
    ∧ (response.status_code = 200
        → summarize_text response = Except.ok { content := response.content }) := by
  unfold summarize_text
  by_cases h : response.status_code = 200 <;> simp [h]

/-- Witness for C7: a 500 response fails, a 200 response yields the
summary record. -/
theorem summarize_text_error_behaviour_witness :
    (∃ e, summarize_text
        { status_code := 500, text := ("Internal error"), content := ("") }
      = Except.error e)
    ∧ summarize_text
        { status_code := 200, text := ("raw json"), content := ("A $500 invoice.") }
      = Except.ok { content := "A $500 invoice." } :=
  ⟨(summarize_text_error_behaviour
      { status_code := 500, text := ("Internal error"), content := ("") }).1.mpr
        (by decide),
   (summarize_text_error_behaviour
      { status_code := 200, text := ("raw json"), content := ("A $500 invoice.") }).2.2
        rfl⟩

/-- One line of a page returned by the Document Intelligence layout
analysis (`line.content`). -/
structure PageLine where
  content : String
deriving DecidableEq, Repr

/-- One page of the analysis result (`page.lines`). -/
structure Page where
  lines : List PageLine
deriving DecidableEq, Repr

/-- Embedding of the accumulation loop of `analyze_pdf`
(`src/function_app.py` lines 52-66): `doc = ''`, then
`for page in result: for line in page.lines: doc += line.content`,
returning `doc`.  The analysis collaborator's output is the input
`pages` (= `poller.result().pages`). -/
def analyze_pdf (pages : List Page) : String :=
  pages.foldl (fun doc page => page.lines.foldl (fun d line => d ++ line.content) doc) ("")

/-- Appending each rendered element in turn to an accumulator yields the
accumulator followed by the joined renderings. -/
theorem foldl_append_eq_join {α : Type} (f : α → String) :
    ∀ (l : List α) (a : String),
      l.foldl (fun d x => d ++ f x) a = a ++ String.join (l.map f) := by
  intro l
  induction l with
  | nil =>
    intro a
    simp [String.join]
  | cons x xs ih =>
    intro a
    have hcons : String.join (f x :: xs.map f) = f x ++ String.join (xs.map f) := by
      apply String.ext
      simp
    simp only [List.foldl_cons, List.map_cons, hcons]
    rw [ih (a ++ f x), String.append_assoc]

/-- C8: `analyze_pdf` returns exactly the concatenation of all line
fragments in collaborator order — page order first, then line order within
each page — i.e. the join over pages of the join of each page's line
contents. -/
theorem analyze_pdf_concatenates_in_order (pages : List Page) :
    analyze_pdf pages
      = String.join (pages.map (fun page =>
          String.join (page.lines.map (fun line => line.content)))) := by
  unfold analyze_pdf
  simp only [foldl_append_eq_join (fun line : PageLine => line.content)]
  rw [foldl_append_eq_join (fun page : Page =>
    String.join (page.lines.map (fun line => line.content)))]
  exact String.empty_append _

/-- One chat message of the request body built by `summarize_text`. -/
structure Message where
  role : String
  content : String
deriving DecidableEq, Repr

/-- The request body `data` built by `summarize_text`
(`src/function_app.py` lines 84-93): the message list, `"max_tokens": 200`
and `"temperature": 0.7` (the decimal literal 0.7 is modelled as the
rational 7/10). -/
structure ChatRequestData where
  messages : List Message
  max_tokens : Nat
  temperature : ℚ
deriving DecidableEq, Repr

/-- The fixed instructional prompt prefix of the user message. -/
def summarize_prompt : String :=
  "Can you explain what the following text is about? "

/-- The body `summarize_text` sends for extracted text `results`:
one user message whose content is the f-string
`"Can you explain what the following text is about? {results}"`,
with `max_tokens` 200 and `temperature` 0.7. -/
def summarize_text_request (results : String) : ChatRequestData :=
  { messages := [{ role := "user"
                   content := "Can you explain what the following text is about? " ++ results }]
    max_tokens := 200
    temperature := 7 / 10 }

/-- `os.environ.get("AZURE_OPENAI_API_VERSION", "2025-01-01-preview")`
(`src/function_app.py` line 75): the configured value when present, the
default otherwise. -/
def api_version (configured : Option String) : String :=
  configured.getD ("2025-01-01-preview")

/-- C9: for every extracted text, the request body carries the text
embedded in the fixed instructional prompt as a single user message, a
200-token output limit and temperature 0.7; and the API version falls back
to the default `2025-01-01-preview` exactly when the configuration is
absent. -/
theorem summarize_text_request_payload (results : String) :
    (summarize_text_request results).messages
      = [{ role := "user", content := summarize_prompt ++ results }]
    ∧ (summarize_text_request results).max_tokens = 200
    ∧ (summarize_text_request results).temperature = 7 / 10
    ∧ api_version none = "2025-01-01-preview"
    ∧ (∀ v, api_version (some v) = v) :=
  ⟨rfl, rfl, rfl, rfl, fun _ => rfl⟩

/-- Python `name.split(sep)` for a one-character separator `sep`: cut the
character list at every occurrence of `sep`, keeping empty segments
(`"".split(sep)` is `[""]`). -/
def pySplitChar (sep : Char) : List Char → List (List Char)
  | [] => [[]]
  | c :: cs =>
    if c = sep then [] :: pySplitChar sep cs
    else
      match pySplitChar sep cs with
      | [] => [[c]]
      | seg :: rest => (c :: seg) :: rest

/-- Embedding of the body of `blob_trigger` (`src/function_app.py`
lines 19-25): `blobName = myblob.name.split("/")[1]`, then
`client.start_new("process_document", client_input=blobName)`.
`some input` means a workflow instance is started with that input;
`none` means the index `[1]` raises `IndexError` and no instance is
started. -/
def blob_trigger (name : String) : Option String :=
  ((pySplitChar ('/') name.data)[1]?).map (fun cs => String.mk cs)

/-- A list without the separator splits into the single segment that is the
whole list. -/
theorem pySplitChar_no_sep (sep : Char) :
    ∀ (s : List Char), sep ∉ s → pySplitChar sep s = [s] := by
  intro s
  induction s with
  | nil =>
    intro _
    rfl
  | cons c cs ih =>
    intro h
    have hc : ¬ c = sep := fun hh => h (hh ▸ List.mem_cons_self c cs)
    have hcs : sep ∉ cs := fun hh => h (List.mem_cons_of_mem c hh)
    simp [pySplitChar, hc, ih hcs]

/-- Splitting a list that starts with a separator-free segment followed by
the separator yields that segment and then the split of the remainder. -/
theorem pySplitChar_append (sep : Char) :
    ∀ (s0 rest : List Char), sep ∉ s0 →
      pySplitChar sep (s0 ++ sep :: rest) = s0 :: pySplitChar sep rest := by
  intro s0
  induction s0 with
  | nil =>
    intro rest _
    simp [pySplitChar]
  | cons c cs ih =>
    intro rest h
    have hc : ¬ c = sep := fun hh => h (hh ▸ List.mem_cons_self c cs)
    have hcs : sep ∉ cs := fun hh => h (List.mem_cons_of_mem c hh)
    simp [pySplitChar, hc, ih rest hcs]

/-- C10: the trigger starts the workflow with exactly the second
`/`-separated segment of the blob path: a path with no `/` makes the index
raise before any instance is started; with two or more segments the second
segment alone is passed on, so every segment beyond the second is dropped
(concretely, `input/sub/file.pdf` starts the workflow with `sub`). -/
theorem blob_trigger_passes_second_segment :
    (∀ s : List Char, ('/') ∉ s → blob_trigger (String.mk s) = none)
    ∧ (∀ s0 s1 rest : List Char, ('/') ∉ s0 → ('/') ∉ s1 →
        blob_trigger (String.mk (s0 ++ ('/') :: (s1 ++ ('/') :: rest)))
          = some (String.mk s1))
    ∧ (∀ s0 s1 : List Char, ('/') ∉ s0 → ('/') ∉ s1 →
        blob_trigger (String.mk (s0 ++ ('/') :: s1)) = some (String.mk s1))
    ∧ blob_trigger ("input/sub/file.pdf") = some ("sub") := by
  refine ⟨?_, ?_, ?_, ?_⟩
  · intro s h
    unfold blob_trigger
    rw [show (String.mk s).data = s from rfl, pySplitChar_no_sep ('/') s h]
    rfl
  · intro s0 s1 rest h0 h1
    unfold blob_trigger
    rw [show (String.mk (s0 ++ ('/') :: (s1 ++ ('/') :: rest))).data
          = s0 ++ ('/') :: (s1 ++ ('/') :: rest) from rfl,
      pySplitChar_append ('/') s0 (s1 ++ ('/') :: rest) h0,
      pySplitChar_append ('/') s1 rest h1]
    simp
  · intro s0 s1 h0 h1
    unfold blob_trigger
    rw [show (String.mk (s0 ++ ('/') :: s1)).data = s0 ++ ('/') :: s1 from rfl,
      pySplitChar_append ('/') s0 s1 h0, pySplitChar_no_sep ('/') s1 h1]
    rfl
  · decide

/-- Witness for C10: a slash-free path starts nothing, and a
container/sub/file path passes `sub` on. -/
theorem blob_trigger_passes_second_segment_witness :
    blob_trigger (String.mk ("noslash").data) = none
    ∧ blob_trigger
        (String.mk (("input").data ++ ('/') :: (("sub").data ++ ('/') :: ("file.pdf").data)))
      = some (String.mk ("sub").data) :=
  ⟨blob_trigger_passes_second_segment.1 (("noslash").data) (by decide),
   blob_trigger_passes_second_segment.2.1 (("input").data) (("sub").data)
     (("file.pdf").data) (by decide) (by decide)⟩
